import Mathlib

/-!
Shallow embedding of the Flashify deck-editor component
(`CreateFlashcards` in the client source). The component keeps an
in-memory editor session (deck title, ordered card list, cursor, flip
flag) and synchronises it with a REST backend on save/delete.

Persisted identifiers (Mongo-style `_id` / `deck_id` strings in the
source) are modelled as opaque naturals; an absent identifier is `none`.
Network effects are modelled by passing in an oracle describing how each
`fetch` settles: a `fetch` promise either resolves (carrying the HTTP
success flag `ok`) or rejects at the transport level.  Note the source
only inspects `.ok` where it explicitly does so; a resolved response
with a non-success status is otherwise indistinguishable from success.
-/

namespace Flashify

/-- One flashcard as held in `flashcardsData`: optional persisted id,
front text, back text (source: the objects built in the `useEffect`
seeding and `handleAddFlashcard`). -/
structure CardData where
  _id : Option Nat
  front : String
  back : String
  deriving Repr, DecidableEq

/-- The blank, untagged card `{ front: '', back: '' }` used for the
initial state, for `handleAddFlashcard`, and as the replacement when the
last card is deleted. -/
def blankCard : CardData := { _id := none, front := "", back := "" }

/-- Editor session state: the four `useState` hooks of the component. -/
structure EditorState where
  deckTitle : String
  flashcardsData : List CardData
  currentCardIndex : Nat
  isFlipped : Bool
  deriving Repr, DecidableEq

/-- The `editDeck` prop (edit target): deck record with its `_id`
(route key of the title update), its `deck_id` field (possibly absent),
its title and its cards. -/
structure EditDeck where
  _id : Nat
  deck_id : Option Nat
  title : String
  cards : List CardData
  deriving Repr, DecidableEq

/-- Create-mode initial state: empty title, one blank card, cursor 0,
not flipped (the `else` branch of the seeding `useEffect`). -/
def createInitState : EditorState :=
  { deckTitle := "", flashcardsData := [blankCard],
    currentCardIndex := 0, isFlipped := false }

/-- Edit-mode initial state seeded from `editDeck` (the `if` branch of
the seeding `useEffect`): title and cards copied, cursor 0, not
flipped. -/
def editInitState (d : EditDeck) : EditorState :=
  { deckTitle := d.title,
    flashcardsData := d.cards.map (fun c =>
      { _id := c._id, front := c.front, back := c.back }),
    currentCardIndex := 0, isFlipped := false }

/-- Source `handleFlip`: toggle the flip flag. -/
def handleFlip (s : EditorState) : EditorState :=
  { s with isFlipped := !s.isFlipped }

/-- Source `handlePrev`: move to the previous card when not at the first one;
otherwise no effect. -/
def handlePrev (s : EditorState) : EditorState :=
  if s.currentCardIndex > 0 then
    { s with currentCardIndex := s.currentCardIndex - 1, isFlipped := false }
  else s

/-- Source `handleNext`: move to the next card when not at the last one;
otherwise no effect.  (For the empty list the JS guard
`currentCardIndex < length - 1` compares against `-1` and is false; Nat
truncated subtraction gives the same no-op.) -/
def handleNext (s : EditorState) : EditorState :=
  if s.currentCardIndex < s.flashcardsData.length - 1 then
    { s with currentCardIndex := s.currentCardIndex + 1, isFlipped := false }
  else s

/-- Source `handleAddFlashcard`: append a blank card, point the cursor at it
(the old length), clear the flip flag. -/
def handleAddFlashcard (s : EditorState) : EditorState :=
  { s with flashcardsData := s.flashcardsData ++ [blankCard],
           currentCardIndex := s.flashcardsData.length,
           isFlipped := false }

/-- Source `handleChangeFront`: overwrite the front text of the current card.
(`List.modify` is a no-op out of range; in the source an out-of-range
cursor would be a crash, unreachable under the index invariant.) -/
def handleChangeFront (t : String) (s : EditorState) : EditorState :=
  { s with flashcardsData :=
      s.flashcardsData.modify (fun c => { c with front := t }) s.currentCardIndex }

/-- Source `handleChangeBack`: overwrite the back text of the current card. -/
def handleChangeBack (t : String) (s : EditorState) : EditorState :=
  { s with flashcardsData :=
      s.flashcardsData.modify (fun c => { c with back := t }) s.currentCardIndex }

/-- How one `fetch` call settles: the promise resolves with an HTTP
response whose success flag is `ok`, or rejects at the transport level. -/
inductive FetchResult where
  | resolved (ok : Bool)
  | rejected
  deriving Repr, DecidableEq

/-- A network request issued by the component, with the data the source
puts in the URL and JSON body. -/
inductive NetworkCall where
  | deleteCard (cardId : Nat)
  | createDeck (username : String) (title : String) (subjectId : Nat)
  | updateDeck (deckId : Nat) (title : String)
  | createCard (username : String) (deckId : Option Nat) (front back : String)
  | updateCard (cardId : Nat) (front back : String)
  deriving Repr, DecidableEq

/-- Observable outcome of a handler: the editor state afterwards, the
network calls issued (in issue order), the `alert` messages shown, and
how many times the completion callback `onSubmit` was invoked. -/
structure HandlerResult where
  state : EditorState
  calls : List NetworkCall
  alerts : List String
  onSubmitCalls : Nat
  deriving Repr, DecidableEq

/-- Source `handleDeleteCard`.  Arguments beyond the state: whether the user
confirms the `window.confirm` prompt, and how the DELETE fetch settles.
The source never inspects the DELETE response (`res.ok` is not
checked), so a resolved response — success status or not — falls
through to the local removal; only a transport rejection reaches the
`catch` block.  An out-of-range cursor (none in the invariant's reach)
would crash in JS reading `cardToDelete._id`; modelled as leaving
everything untouched. -/
def handleDeleteCard (userConfirms : Bool) (res : FetchResult)
    (s : EditorState) : HandlerResult :=
  match s.flashcardsData[s.currentCardIndex]? with
  | none => { state := s, calls := [], alerts := [], onSubmitCalls := 0 }
  | some cardToDelete =>
    match cardToDelete._id with
    | none => { state := s, calls := [], alerts := [], onSubmitCalls := 0 }
    | some cid =>
      if !userConfirms then
        { state := s, calls := [], alerts := [], onSubmitCalls := 0 }
      else
        match res with
        | .rejected =>
          { state := s, calls := [NetworkCall.deleteCard cid],
            alerts := ["Failed to delete flashcard."], onSubmitCalls := 0 }
        | .resolved _ =>
          let updated := s.flashcardsData.eraseIdx s.currentCardIndex
          { state :=
              { s with
                flashcardsData := if updated.length > 0 then updated else [blankCard],
                currentCardIndex := s.currentCardIndex - 1,
                isFlipped := false },
            calls := [NetworkCall.deleteCard cid],
            alerts := [], onSubmitCalls := 0 }

/-- Executable model of the JS string method `trim()`: drop leading and
trailing whitespace.  (Lean's own `String.trim` is equivalent on the
inputs at play but is built on `Substring` helpers the kernel cannot
reduce, so the embedding uses this list-level definition.) -/
def jsTrim (s : String) : String :=
  ⟨((s.data.dropWhile Char.isWhitespace).reverse.dropWhile
      Char.isWhitespace).reverse⟩

/-- Source `collectFlashcards`: keep the cards whose front and back are
both non-empty after trimming (JS truthiness of the trimmed strings). -/
def collectFlashcards (cards : List CardData) : List CardData :=
  cards.filter (fun card => !(jsTrim card.front == "") && !(jsTrim card.back == ""))

/-- How the network settles the fetches a save issues: the deck upsert,
the deck id parsed from a successful create response
(`data.deck.deck_id`), and, for each position in the collected card
list, how that card's fetch settles. -/
structure SubmitEnv where
  deckRes : FetchResult
  createdDeckId : Nat
  cardRes : Nat → FetchResult

/-- The alert text of the `catch` block in `handleSubmit`. -/
def saveErrorAlert : String := "Error saving deck and flashcards. Please try again."

/-- The card request built inside the `cardPromises` map of
`handleSubmit`: PUT by card id when `card._id` is set, else POST under
the captured `deckId`. -/
def cardCallOf (username : String) (deckId : Option Nat) (card : CardData) :
    NetworkCall :=
  match card._id with
  | some cid => NetworkCall.updateCard cid card.front card.back
  | none => NetworkCall.createCard username deckId card.front card.back

/-- Source `handleSubmit`.  Validation (title trimmed non-empty, at
least one collected card), then the deck upsert — PUT on `editDeck._id`
in edit mode, POST in create mode, both checked for `.ok` — then the
`Promise.all` fan-out of card requests, whose responses are never
inspected: only a transport rejection of some card fetch reaches the
`catch` block.  In edit mode `deckId` is read from `editDeck.deck_id`,
never from the PUT response.  On full resolution: success alert, reset
to the blank create-mode state, one `onSubmit` call. -/
def handleSubmit (username : String) (subjectId : Nat)
    (editDeck : Option EditDeck) (env : SubmitEnv)
    (s : EditorState) : HandlerResult :=
  if jsTrim s.deckTitle = "" then
    { state := s, calls := [], alerts := ["Deck title is required!"],
      onSubmitCalls := 0 }
  else
    let collectedFlashcards := collectFlashcards s.flashcardsData
    if collectedFlashcards.length = 0 then
      { state := s, calls := [],
        alerts := ["At least one flashcard is required!"], onSubmitCalls := 0 }
    else
      let deckCall :=
        match editDeck with
        | some d => NetworkCall.updateDeck d._id s.deckTitle
        | none => NetworkCall.createDeck username s.deckTitle subjectId
      let deckOk :=
        match env.deckRes with
        | .resolved ok => ok
        | .rejected => false
      if !deckOk then
        { state := s, calls := [deckCall], alerts := [saveErrorAlert],
          onSubmitCalls := 0 }
      else
        let deckId :=
          match editDeck with
          | some d => d.deck_id
          | none => some env.createdDeckId
        let cardCalls := collectedFlashcards.map (cardCallOf username deckId)
        let anyCardRejected :=
          (List.range collectedFlashcards.length).any
            (fun i => env.cardRes i == FetchResult.rejected)
        if anyCardRejected then
          { state := s, calls := deckCall :: cardCalls,
            alerts := [saveErrorAlert], onSubmitCalls := 0 }
        else
          { state := createInitState, calls := deckCall :: cardCalls,
            alerts := [if editDeck.isSome then "Deck updated!"
                       else "Deck and flashcards saved!"],
            onSubmitCalls := 1 }

/-- One user-level editor operation, carrying the oracle inputs the
operation consumes (confirmation answer, fetch outcome). -/
inductive Op where
  | flip
  | prev
  | next
  | addCard
  | editFront (t : String)
  | editBack (t : String)
  | deleteCard (userConfirms : Bool) (res : FetchResult)

/-- State transition of one operation (for `deleteCard`, the editor
state the handler leaves behind). -/
def applyOp : Op → EditorState → EditorState
  | .flip, s => handleFlip s
  | .prev, s => handlePrev s
  | .next, s => handleNext s
  | .addCard, s => handleAddFlashcard s
  | .editFront t, s => handleChangeFront t s
  | .editBack t, s => handleChangeBack t s
  | .deleteCard c r, s => (handleDeleteCard c r s).state

/-- Run a sequence of operations left to right. -/
def runOps (ops : List Op) (s : EditorState) : EditorState :=
  ops.foldl (fun t op => applyOp op t) s

/-- The editor invariant of the spec: the card list is non-empty and
the cursor is a valid index into it. -/
def Inv (s : EditorState) : Prop :=
  s.flashcardsData ≠ [] ∧ s.currentCardIndex < s.flashcardsData.length

instance (s : EditorState) : Decidable (Inv s) := by
  unfold Inv; infer_instance

/-- Arithmetic form of the invariant, convenient for `omega`. -/
theorem Inv_iff (s : EditorState) :
    Inv s ↔ 0 < s.flashcardsData.length
      ∧ s.currentCardIndex < s.flashcardsData.length := by
  simp [Inv, List.length_pos]

/-- Deletion preserves the invariant: a rejected or unconfirmed delete
leaves the state alone, and a resolved one erases at the cursor,
backfilling a blank card when the list would become empty. -/
theorem Inv_handleDeleteCard (userConfirms : Bool) (res : FetchResult)
    (s : EditorState) (h : Inv s) :
    Inv (handleDeleteCard userConfirms res s).state := by
  obtain ⟨h1, h2⟩ := (Inv_iff s).mp h
  obtain ⟨c, hc⟩ : ∃ c, s.flashcardsData[s.currentCardIndex]? = some c :=
    ⟨_, List.getElem?_eq_getElem h2⟩
  rw [Inv_iff]
  cases hcid : c._id with
  | none =>
    simp only [handleDeleteCard, hc, hcid]
    exact ⟨h1, h2⟩
  | some cid =>
    cases userConfirms with
    | false =>
      simp only [handleDeleteCard, hc, hcid, Bool.not_false, if_pos]
      exact ⟨h1, h2⟩
    | true =>
      cases res with
      | rejected =>
        simp only [handleDeleteCard, hc, hcid, Bool.not_true,
          Bool.false_eq_true, if_false]
        exact ⟨h1, h2⟩
      | resolved ok =>
        have herase : (s.flashcardsData.eraseIdx s.currentCardIndex).length
            = s.flashcardsData.length - 1 := by
          rw [List.length_eraseIdx]; simp [h2]
        simp only [handleDeleteCard, hc, hcid, Bool.not_true,
          Bool.false_eq_true, if_false]
        split
        · rename_i hpos
          constructor <;> omega
        · rename_i hneg
          refine ⟨by simp, ?_⟩
          show s.currentCardIndex - 1 < 1
          omega

/-- Every single operation preserves the invariant. -/
theorem Inv_applyOp (op : Op) (s : EditorState) (h : Inv s) :
    Inv (applyOp op s) := by
  obtain ⟨h1, h2⟩ := (Inv_iff s).mp h
  cases op with
  | flip =>
    rw [Inv_iff]
    simpa [applyOp, handleFlip] using ⟨h1, h2⟩
  | prev =>
    rw [Inv_iff]
    simp only [applyOp, handlePrev]
    split
    · refine ⟨h1, ?_⟩
      show s.currentCardIndex - 1 < s.flashcardsData.length
      omega
    · exact ⟨h1, h2⟩
  | next =>
    rw [Inv_iff]
    simp only [applyOp, handleNext]
    split
    · rename_i hlt
      refine ⟨h1, ?_⟩
      show s.currentCardIndex + 1 < s.flashcardsData.length
      omega
    · exact ⟨h1, h2⟩
  | addCard =>
    rw [Inv_iff]
    simp [applyOp, handleAddFlashcard]
  | editFront t =>
    rw [Inv_iff]
    simpa [applyOp, handleChangeFront, List.length_modify] using ⟨h1, h2⟩
  | editBack t =>
    rw [Inv_iff]
    simpa [applyOp, handleChangeBack, List.length_modify] using ⟨h1, h2⟩
  | deleteCard c r => exact Inv_handleDeleteCard c r s h

/-- Whole sequences of operations preserve the invariant. -/
theorem Inv_runOps (ops : List Op) (s : EditorState) (h : Inv s) :
    Inv (runOps ops s) := by
  induction ops generalizing s with
  | nil => exact h
  | cons op rest ih => exact ih (applyOp op s) (Inv_applyOp op s h)

/-- C3: both initial states satisfy the invariant (edit mode provided
the seeding deck has cards at all), and after any sequence of editor
operations started from a state satisfying the invariant, the card
list is non-empty and the cursor is a valid index; moreover every
operation that changes the active card — an enabled Prev or Next,
AddCard, and a confirmed delete of a persisted card whose fetch
resolves — leaves `isFlipped = false`. -/
theorem editor_invariant_preserved
    (s : EditorState) (h : Inv s) (ops : List Op) :
    (Inv (runOps ops s))
    ∧ Inv createInitState
    ∧ (∀ d : EditDeck, d.cards ≠ [] → Inv (editInitState d))
    ∧ (∀ t : EditorState, t.currentCardIndex > 0 →
        (handlePrev t).isFlipped = false)
    ∧ (∀ t : EditorState, t.currentCardIndex < t.flashcardsData.length - 1 →
        (handleNext t).isFlipped = false)
    ∧ (∀ t : EditorState, (handleAddFlashcard t).isFlipped = false)
    ∧ (∀ (t : EditorState) (c : CardData) (cid : Nat) (ok : Bool),
        t.flashcardsData[t.currentCardIndex]? = some c →
        c._id = some cid →
        (handleDeleteCard true (FetchResult.resolved ok) t).state.isFlipped
          = false) := by
  refine ⟨Inv_runOps ops s h, by decide, ?_, ?_, ?_, ?_, ?_⟩
  · intro d hd
    rw [Inv_iff]
    simpa [editInitState, List.length_pos] using hd
  · intro t ht; simp [handlePrev, ht]
  · intro t ht; simp [handleNext, ht]
  · intro t; simp [handleAddFlashcard]
  · intro t c cid ok hc hid
    simp [handleDeleteCard, hc, hid]

/-- Concrete instantiation of `editor_invariant_preserved` at the
create-mode initial state and a sample operation sequence. -/
theorem editor_invariant_preserved_witness :
    (Inv (runOps [Op.addCard, Op.flip, Op.next,
        Op.deleteCard true FetchResult.rejected, Op.prev] createInitState))
    ∧ Inv createInitState
    ∧ (∀ d : EditDeck, d.cards ≠ [] → Inv (editInitState d))
    ∧ (∀ t : EditorState, t.currentCardIndex > 0 →
        (handlePrev t).isFlipped = false)
    ∧ (∀ t : EditorState, t.currentCardIndex < t.flashcardsData.length - 1 →
        (handleNext t).isFlipped = false)
    ∧ (∀ t : EditorState, (handleAddFlashcard t).isFlipped = false)
    ∧ (∀ (t : EditorState) (c : CardData) (cid : Nat) (ok : Bool),
        t.flashcardsData[t.currentCardIndex]? = some c →
        c._id = some cid →
        (handleDeleteCard true (FetchResult.resolved ok) t).state.isFlipped
          = false) :=
  editor_invariant_preserved createInitState (by decide)
    [Op.addCard, Op.flip, Op.next,
     Op.deleteCard true FetchResult.rejected, Op.prev]

/-- C8: AddCard appends one blank untagged card at the end of the list,
keeps every existing card and the title unchanged, and afterwards the
cursor is on the new last card and the flip flag is cleared. -/
theorem addCard_appends_blank_and_focuses_it (s : EditorState) :
    (handleAddFlashcard s).flashcardsData = s.flashcardsData ++ [blankCard]
    ∧ (handleAddFlashcard s).currentCardIndex
        = (handleAddFlashcard s).flashcardsData.length - 1
    ∧ (handleAddFlashcard s).isFlipped = false
    ∧ (handleAddFlashcard s).deckTitle = s.deckTitle := by
  refine ⟨rfl, ?_, rfl, rfl⟩
  show s.flashcardsData.length = (s.flashcardsData ++ [blankCard]).length - 1
  simp

/-- C7: deleting the only remaining card — persisted id, user confirms,
DELETE resolves successfully — leaves a one-element list holding the
blank untagged card, cursor 0, flip flag cleared. -/
theorem deleteCard_last_card_yields_blank
    (s : EditorState) (c : CardData) (cid : Nat)
    (hcards : s.flashcardsData = [c]) (hidx : s.currentCardIndex = 0)
    (hid : c._id = some cid) :
    (handleDeleteCard true (FetchResult.resolved true) s).state.flashcardsData
        = [blankCard]
    ∧ (handleDeleteCard true (FetchResult.resolved true)
        s).state.currentCardIndex = 0
    ∧ (handleDeleteCard true (FetchResult.resolved true)
        s).state.isFlipped = false := by
  simp [handleDeleteCard, hcards, hidx, hid]

/-- Concrete instantiation of `deleteCard_last_card_yields_blank`. -/
theorem deleteCard_last_card_yields_blank_witness :
    (handleDeleteCard true (FetchResult.resolved true)
        { deckTitle := "F",
          flashcardsData := [{ _id := some 5, front := "q", back := "a" }],
          currentCardIndex := 0, isFlipped := true }).state.flashcardsData
        = [blankCard]
    ∧ (handleDeleteCard true (FetchResult.resolved true)
        { deckTitle := "F",
          flashcardsData := [{ _id := some 5, front := "q", back := "a" }],
          currentCardIndex := 0, isFlipped := true }).state.currentCardIndex = 0
    ∧ (handleDeleteCard true (FetchResult.resolved true)
        { deckTitle := "F",
          flashcardsData := [{ _id := some 5, front := "q", back := "a" }],
          currentCardIndex := 0, isFlipped := true }).state.isFlipped = false :=
  deleteCard_last_card_yields_blank _
    { _id := some 5, front := "q", back := "a" } 5 rfl rfl rfl

/-- C9: DeleteCard with an unpersisted current card, or with the
confirmation prompt declined, makes no network call, shows no alert,
and leaves the whole editor state unchanged. -/
theorem deleteCard_noop_without_id_or_consent
    (s : EditorState) (c : CardData) (userConfirms : Bool) (res : FetchResult)
    (hc : s.flashcardsData[s.currentCardIndex]? = some c)
    (h : c._id = none ∨ userConfirms = false) :
    handleDeleteCard userConfirms res s
      = { state := s, calls := [], alerts := [], onSubmitCalls := 0 } := by
  rcases h with h | h
  · simp [handleDeleteCard, hc, h]
  · subst h
    cases hcid : c._id <;> simp [handleDeleteCard, hc, hcid]

/-- Concrete instantiation of `deleteCard_noop_without_id_or_consent`
(unpersisted card, user would even confirm). -/
theorem deleteCard_noop_witness :
    handleDeleteCard true FetchResult.rejected
        { deckTitle := "t",
          flashcardsData := [{ _id := none, front := "x", back := "y" }],
          currentCardIndex := 0, isFlipped := false }
      = { state :=
            { deckTitle := "t",
              flashcardsData := [{ _id := none, front := "x", back := "y" }],
              currentCardIndex := 0, isFlipped := false },
          calls := [], alerts := [], onSubmitCalls := 0 } :=
  deleteCard_noop_without_id_or_consent _
    { _id := none, front := "x", back := "y" } true FetchResult.rejected
    rfl (Or.inl rfl)

/-- C2 counterexample: a persisted current card, user confirming, and a
DELETE that settles with a non-success response status (resolved with
`ok = false`): the source never checks the DELETE response, so the card
is removed locally and no failure notification is shown — against the
claim's "state unchanged, user notified" for that failure mode. -/
theorem deleteCard_status_failure_cex :
    (handleDeleteCard true (FetchResult.resolved false)
        { deckTitle := "t",
          flashcardsData := [{ _id := some 9, front := "q", back := "a" }],
          currentCardIndex := 0, isFlipped := false }).state
      ≠ { deckTitle := "t",
          flashcardsData := [{ _id := some 9, front := "q", back := "a" }],
          currentCardIndex := 0, isFlipped := false }
    ∧ (handleDeleteCard true (FetchResult.resolved false)
        { deckTitle := "t",
          flashcardsData := [{ _id := some 9, front := "q", back := "a" }],
          currentCardIndex := 0, isFlipped := false }).state.flashcardsData
        = [blankCard]
    ∧ (handleDeleteCard true (FetchResult.resolved false)
        { deckTitle := "t",
          flashcardsData := [{ _id := some 9, front := "q", back := "a" }],
          currentCardIndex := 0, isFlipped := false }).alerts = [] := by
  refine ⟨?_, by decide, by decide⟩
  intro hcontra
  have : ([blankCard] : List CardData)
      = [{ _id := some 9, front := "q", back := "a" }] := by
    simpa [handleDeleteCard, blankCard] using congrArg EditorState.flashcardsData hcontra
  simp [blankCard] at this

/-- C2 amended: DeleteCard on a persisted card, confirmed, whose DELETE
fetch rejects at the transport level (the only failure the source
detects) leaves the editor state unchanged, issues exactly the one
DELETE call, and notifies the user of the failure. -/
theorem deleteCard_rejection_state_unchanged
    (s : EditorState) (c : CardData) (cid : Nat)
    (hc : s.flashcardsData[s.currentCardIndex]? = some c)
    (hid : c._id = some cid) :
    handleDeleteCard true FetchResult.rejected s
      = { state := s, calls := [NetworkCall.deleteCard cid],
          alerts := ["Failed to delete flashcard."], onSubmitCalls := 0 } := by
  simp [handleDeleteCard, hc, hid]

/-- Concrete instantiation of `deleteCard_rejection_state_unchanged`. -/
theorem deleteCard_rejection_state_unchanged_witness :
    handleDeleteCard true FetchResult.rejected
        { deckTitle := "t",
          flashcardsData := [{ _id := some 9, front := "q", back := "a" }],
          currentCardIndex := 0, isFlipped := false }
      = { state :=
            { deckTitle := "t",
              flashcardsData := [{ _id := some 9, front := "q", back := "a" }],
              currentCardIndex := 0, isFlipped := false },
          calls := [NetworkCall.deleteCard 9],
          alerts := ["Failed to delete flashcard."], onSubmitCalls := 0 } :=
  deleteCard_rejection_state_unchanged _
    { _id := some 9, front := "q", back := "a" } 9 rfl rfl

/-- C4: a Save with an empty trimmed title, or with no valid card,
issues no network call, shows a user-visible message, leaves the state
unchanged, and does not invoke the completion callback. -/
theorem submit_validation_failure_no_network
    (username : String) (subjectId : Nat) (editDeck : Option EditDeck)
    (env : SubmitEnv) (s : EditorState)
    (h : jsTrim s.deckTitle = "" ∨ collectFlashcards s.flashcardsData = []) :
    (handleSubmit username subjectId editDeck env s).calls = []
    ∧ (handleSubmit username subjectId editDeck env s).state = s
    ∧ (handleSubmit username subjectId editDeck env s).alerts ≠ []
    ∧ (handleSubmit username subjectId editDeck env s).onSubmitCalls = 0 := by
  rcases h with h | h
  · simp [handleSubmit, h]
  · by_cases ht : jsTrim s.deckTitle = ""
    · simp [handleSubmit, ht]
    · simp [handleSubmit, ht, h]

/-- Concrete instantiation of `submit_validation_failure_no_network`:
whitespace-only title. -/
theorem submit_validation_failure_no_network_witness :
    (handleSubmit "u" 0 none
        { deckRes := FetchResult.resolved true, createdDeckId := 1,
          cardRes := fun _ => FetchResult.resolved true }
        { deckTitle := "   ", flashcardsData := [blankCard],
          currentCardIndex := 0, isFlipped := false }).calls = []
    ∧ (handleSubmit "u" 0 none
        { deckRes := FetchResult.resolved true, createdDeckId := 1,
          cardRes := fun _ => FetchResult.resolved true }
        { deckTitle := "   ", flashcardsData := [blankCard],
          currentCardIndex := 0, isFlipped := false }).state
        = { deckTitle := "   ", flashcardsData := [blankCard],
            currentCardIndex := 0, isFlipped := false }
    ∧ (handleSubmit "u" 0 none
        { deckRes := FetchResult.resolved true, createdDeckId := 1,
          cardRes := fun _ => FetchResult.resolved true }
        { deckTitle := "   ", flashcardsData := [blankCard],
          currentCardIndex := 0, isFlipped := false }).alerts ≠ []
    ∧ (handleSubmit "u" 0 none
        { deckRes := FetchResult.resolved true, createdDeckId := 1,
          cardRes := fun _ => FetchResult.resolved true }
        { deckTitle := "   ", flashcardsData := [blankCard],
          currentCardIndex := 0, isFlipped := false }).onSubmitCalls = 0 :=
  submit_validation_failure_no_network "u" 0 none
    { deckRes := FetchResult.resolved true, createdDeckId := 1,
      cardRes := fun _ => FetchResult.resolved true }
    { deckTitle := "   ", flashcardsData := [blankCard],
      currentCardIndex := 0, isFlipped := false }
    (Or.inl rfl)

/-- C5: when validation passes but the deck upsert fails — transport
rejection or non-success response status, both of which the source
checks for the deck call — the save aborts with exactly the one deck
call, the generic error alert, the local state untouched, and no
completion callback. -/
theorem submit_deck_upsert_failure_aborts
    (username : String) (subjectId : Nat) (editDeck : Option EditDeck)
    (env : SubmitEnv) (s : EditorState)
    (ht : ¬ jsTrim s.deckTitle = "")
    (hcards : ¬ collectFlashcards s.flashcardsData = [])
    (hfail : env.deckRes = FetchResult.rejected
      ∨ env.deckRes = FetchResult.resolved false) :
    (handleSubmit username subjectId editDeck env s).calls
        = [match editDeck with
           | some d => NetworkCall.updateDeck d._id s.deckTitle
           | none => NetworkCall.createDeck username s.deckTitle subjectId]
    ∧ (handleSubmit username subjectId editDeck env s).state = s
    ∧ (handleSubmit username subjectId editDeck env s).alerts = [saveErrorAlert]
    ∧ (handleSubmit username subjectId editDeck env s).onSubmitCalls = 0 := by
  have hlen : ¬ (collectFlashcards s.flashcardsData).length = 0 := by
    simpa [List.length_eq_zero] using hcards
  rcases hfail with h | h <;>
    rcases editDeck with _ | d <;>
      simp [handleSubmit, ht, hlen, h]

/-- Concrete instantiation of `submit_deck_upsert_failure_aborts`:
edit mode, deck PUT resolves with a non-success status. -/
theorem submit_deck_upsert_failure_aborts_witness :
    (handleSubmit "u" 0
        (some { _id := 3, deck_id := some 8, title := "old", cards := [] })
        { deckRes := FetchResult.resolved false, createdDeckId := 1,
          cardRes := fun _ => FetchResult.resolved true }
        { deckTitle := "T",
          flashcardsData := [{ _id := some 5, front := "f", back := "b" }],
          currentCardIndex := 0, isFlipped := false }).calls
        = [NetworkCall.updateDeck 3 "T"]
    ∧ (handleSubmit "u" 0
        (some { _id := 3, deck_id := some 8, title := "old", cards := [] })
        { deckRes := FetchResult.resolved false, createdDeckId := 1,
          cardRes := fun _ => FetchResult.resolved true }
        { deckTitle := "T",
          flashcardsData := [{ _id := some 5, front := "f", back := "b" }],
          currentCardIndex := 0, isFlipped := false }).state
        = { deckTitle := "T",
            flashcardsData := [{ _id := some 5, front := "f", back := "b" }],
            currentCardIndex := 0, isFlipped := false }
    ∧ (handleSubmit "u" 0
        (some { _id := 3, deck_id := some 8, title := "old", cards := [] })
        { deckRes := FetchResult.resolved false, createdDeckId := 1,
          cardRes := fun _ => FetchResult.resolved true }
        { deckTitle := "T",
          flashcardsData := [{ _id := some 5, front := "f", back := "b" }],
          currentCardIndex := 0, isFlipped := false }).alerts = [saveErrorAlert]
    ∧ (handleSubmit "u" 0
        (some { _id := 3, deck_id := some 8, title := "old", cards := [] })
        { deckRes := FetchResult.resolved false, createdDeckId := 1,
          cardRes := fun _ => FetchResult.resolved true }
        { deckTitle := "T",
          flashcardsData := [{ _id := some 5, front := "f", back := "b" }],
          currentCardIndex := 0, isFlipped := false }).onSubmitCalls = 0 :=
  submit_deck_upsert_failure_aborts "u" 0
    (some { _id := 3, deck_id := some 8, title := "old", cards := [] })
    { deckRes := FetchResult.resolved false, createdDeckId := 1,
      cardRes := fun _ => FetchResult.resolved true }
    { deckTitle := "T",
      flashcardsData := [{ _id := some 5, front := "f", back := "b" }],
      currentCardIndex := 0, isFlipped := false }
    (by decide) (by decide) (Or.inr rfl)

/-- Environment where the deck upsert succeeds (a create returns id 42)
and every card fetch resolves successfully. -/
def succEnv : SubmitEnv :=
  { deckRes := FetchResult.resolved true, createdDeckId := 42,
    cardRes := fun _ => FetchResult.resolved true }

/-- Editor state holding a valid persisted card, a valid unpersisted
card, and an invalid (blank-backed) card. -/
def succState : EditorState :=
  { deckTitle := "T",
    flashcardsData := [{ _id := some 5, front := "f1", back := "b1" },
                       { _id := none, front := "f2", back := "b2" },
                       { _id := none, front := "f3", back := "" }],
    currentCardIndex := 0, isFlipped := false }

/-- Core description of the fully-resolved save path, shared by the
success-path and edit-mode identifier theorems: when validation passes,
the deck upsert succeeds and no card fetch rejects, the save resets the
editor, fires the callback once, and issues the deck call followed by
exactly one request per collected card. -/
theorem handleSubmit_all_resolved
    (username : String) (subjectId : Nat) (editDeck : Option EditDeck)
    (env : SubmitEnv) (s : EditorState)
    (ht : ¬ jsTrim s.deckTitle = "")
    (hcards : ¬ collectFlashcards s.flashcardsData = [])
    (hok : env.deckRes = FetchResult.resolved true)
    (hres : ∀ i < (collectFlashcards s.flashcardsData).length,
        env.cardRes i ≠ FetchResult.rejected) :
    (handleSubmit username subjectId editDeck env s).state = createInitState
    ∧ (handleSubmit username subjectId editDeck env s).onSubmitCalls = 1
    ∧ (handleSubmit username subjectId editDeck env s).calls
        = (match editDeck with
           | some d => NetworkCall.updateDeck d._id s.deckTitle
           | none => NetworkCall.createDeck username s.deckTitle subjectId)
          :: (collectFlashcards s.flashcardsData).map
              (cardCallOf username
                (match editDeck with
                 | some d => d.deck_id
                 | none => some env.createdDeckId)) := by
  have hlen : ¬ (collectFlashcards s.flashcardsData).length = 0 := by
    simpa [List.length_eq_zero] using hcards
  have hany : ((List.range (collectFlashcards s.flashcardsData).length).any
      (fun i => env.cardRes i == FetchResult.rejected)) = false := by
    rw [List.any_eq_false]
    intro i hi
    rw [List.mem_range] at hi
    simpa using hres i hi
  rcases editDeck with _ | d <;> simp [handleSubmit, ht, hlen, hok, hany]

/-- C6: when validation passes, the deck upsert succeeds and every card
fetch resolves, the editor resets to the blank create-mode state
(empty title, one blank untagged card, cursor 0, not flipped), the
completion callback fires exactly once, and the calls issued are
exactly the deck upsert followed by one request per collected (valid)
card: update-by-id for id-bearing cards, create-under-deck-id for the
rest — so invalid cards appear in no card call. -/
theorem submit_success_resets_and_notifies
    (username : String) (subjectId : Nat) (editDeck : Option EditDeck)
    (env : SubmitEnv) (s : EditorState)
    (ht : ¬ jsTrim s.deckTitle = "")
    (hcards : ¬ collectFlashcards s.flashcardsData = [])
    (hok : env.deckRes = FetchResult.resolved true)
    (hres : ∀ i < (collectFlashcards s.flashcardsData).length,
        env.cardRes i ≠ FetchResult.rejected) :
    (handleSubmit username subjectId editDeck env s).state = createInitState
    ∧ (handleSubmit username subjectId editDeck env s).onSubmitCalls = 1
    ∧ (handleSubmit username subjectId editDeck env s).calls
        = (match editDeck with
           | some d => NetworkCall.updateDeck d._id s.deckTitle
           | none => NetworkCall.createDeck username s.deckTitle subjectId)
          :: (collectFlashcards s.flashcardsData).map
              (cardCallOf username
                (match editDeck with
                 | some d => d.deck_id
                 | none => some env.createdDeckId)) :=
  handleSubmit_all_resolved username subjectId editDeck env s ht hcards hok hres

/-- Concrete instantiation of `submit_success_resets_and_notifies`:
create mode with a mixed card list. -/
theorem submit_success_resets_and_notifies_witness :
    (handleSubmit "u" 3 none succEnv succState).state = createInitState
    ∧ (handleSubmit "u" 3 none succEnv succState).onSubmitCalls = 1
    ∧ (handleSubmit "u" 3 none succEnv succState).calls
        = NetworkCall.createDeck "u" "T" 3
          :: [NetworkCall.updateCard 5 "f1" "b1",
              NetworkCall.createCard "u" (some 42) "f2" "b2"] := by
  have h := submit_success_resets_and_notifies "u" 3 none succEnv succState
    (by decide) (by decide) rfl (fun i _ hcon => FetchResult.noConfusion hcon)
  exact ⟨h.1, h.2.1, h.2.2.trans (by decide)⟩

/-- Environment where the deck create succeeds (id 7) but every card
fetch resolves with a non-success HTTP status. -/
def cardStatusFailEnv : SubmitEnv :=
  { deckRes := FetchResult.resolved true, createdDeckId := 7,
    cardRes := fun _ => FetchResult.resolved false }

/-- C1 counterexample: the deck create succeeds and the single card
create comes back with a non-success response status (resolved with
`ok = false`).  The source never inspects card upsert responses, so
instead of the claimed generic failure with state left as-is and no
callback, the save shows the success alert, resets the editor, and
invokes the completion callback once. -/
theorem submit_card_status_failure_cex :
    cardStatusFailEnv.cardRes 0 = FetchResult.resolved false
    ∧ (handleSubmit "u" 0 none cardStatusFailEnv
        { deckTitle := "T",
          flashcardsData := [{ _id := none, front := "f", back := "b" }],
          currentCardIndex := 0, isFlipped := false }).onSubmitCalls = 1
    ∧ (handleSubmit "u" 0 none cardStatusFailEnv
        { deckTitle := "T",
          flashcardsData := [{ _id := none, front := "f", back := "b" }],
          currentCardIndex := 0, isFlipped := false }).state = createInitState
    ∧ (handleSubmit "u" 0 none cardStatusFailEnv
        { deckTitle := "T",
          flashcardsData := [{ _id := none, front := "f", back := "b" }],
          currentCardIndex := 0, isFlipped := false }).alerts
        = ["Deck and flashcards saved!"] :=
  ⟨rfl, by decide, by decide, by decide⟩

/-- C1 amended: when the deck upsert succeeds and at least one card
fetch rejects at the transport level — the only card failure the
source detects — the save shows the single generic failure alert,
leaves the editor state as-is, and does not invoke the completion
callback.  (A card upsert resolving with a non-success status is
treated as success; see the counterexample.) -/
theorem submit_card_rejection_generic_failure
    (username : String) (subjectId : Nat) (editDeck : Option EditDeck)
    (env : SubmitEnv) (s : EditorState)
    (ht : ¬ jsTrim s.deckTitle = "")
    (hcards : ¬ collectFlashcards s.flashcardsData = [])
    (hok : env.deckRes = FetchResult.resolved true)
    (hrej : ∃ i, i < (collectFlashcards s.flashcardsData).length
      ∧ env.cardRes i = FetchResult.rejected) :
    (handleSubmit username subjectId editDeck env s).alerts = [saveErrorAlert]
    ∧ (handleSubmit username subjectId editDeck env s).state = s
    ∧ (handleSubmit username subjectId editDeck env s).onSubmitCalls = 0 := by
  have hlen : ¬ (collectFlashcards s.flashcardsData).length = 0 := by
    simpa [List.length_eq_zero] using hcards
  have hany : ((List.range (collectFlashcards s.flashcardsData).length).any
      (fun i => env.cardRes i == FetchResult.rejected)) = true := by
    obtain ⟨i, hi, hr⟩ := hrej
    rw [List.any_eq_true]
    exact ⟨i, List.mem_range.mpr hi, by simp [hr]⟩
  rcases editDeck with _ | d <;> simp [handleSubmit, ht, hlen, hok, hany]

/-- Environment where the deck create succeeds (id 7) but every card
fetch rejects at the transport level. -/
def cardRejectEnv : SubmitEnv :=
  { deckRes := FetchResult.resolved true, createdDeckId := 7,
    cardRes := fun _ => FetchResult.rejected }

/-- Concrete instantiation of `submit_card_rejection_generic_failure`. -/
theorem submit_card_rejection_generic_failure_witness :
    (handleSubmit "u" 0 none cardRejectEnv
        { deckTitle := "T",
          flashcardsData := [{ _id := none, front := "f", back := "b" }],
          currentCardIndex := 0, isFlipped := false }).alerts = [saveErrorAlert]
    ∧ (handleSubmit "u" 0 none cardRejectEnv
        { deckTitle := "T",
          flashcardsData := [{ _id := none, front := "f", back := "b" }],
          currentCardIndex := 0, isFlipped := false }).state
        = { deckTitle := "T",
            flashcardsData := [{ _id := none, front := "f", back := "b" }],
            currentCardIndex := 0, isFlipped := false }
    ∧ (handleSubmit "u" 0 none cardRejectEnv
        { deckTitle := "T",
          flashcardsData := [{ _id := none, front := "f", back := "b" }],
          currentCardIndex := 0, isFlipped := false }).onSubmitCalls = 0 :=
  submit_card_rejection_generic_failure "u" 0 none cardRejectEnv
    { deckTitle := "T",
      flashcardsData := [{ _id := none, front := "f", back := "b" }],
      currentCardIndex := 0, isFlipped := false }
    (by decide) (by decide) rfl ⟨0, by decide, rfl⟩

/-- C10: in edit mode the deck title update is addressed by
`editDeck._id` while id-less valid cards are created under
`editDeck.deck_id`; the deck id for card creation is never captured
from the deck-update response, so the save result is unchanged under
any would-be returned id, and the save succeeds whatever `deck_id`
holds — absent or different from `_id` included. -/
theorem submit_edit_mode_id_sources
    (username : String) (subjectId : Nat) (d : EditDeck)
    (env : SubmitEnv) (s : EditorState)
    (ht : ¬ jsTrim s.deckTitle = "")
    (hcards : ¬ collectFlashcards s.flashcardsData = [])
    (hok : env.deckRes = FetchResult.resolved true)
    (hres : ∀ i < (collectFlashcards s.flashcardsData).length,
        env.cardRes i ≠ FetchResult.rejected) :
    (handleSubmit username subjectId (some d) env s).calls
        = NetworkCall.updateDeck d._id s.deckTitle
          :: (collectFlashcards s.flashcardsData).map
              (cardCallOf username d.deck_id)
    ∧ (handleSubmit username subjectId (some d) env s).onSubmitCalls = 1
    ∧ (∀ k : Nat,
        handleSubmit username subjectId (some d)
            { deckRes := env.deckRes, createdDeckId := k,
              cardRes := env.cardRes } s
          = handleSubmit username subjectId (some d) env s) := by
  have h := handleSubmit_all_resolved username subjectId (some d)
    env s ht hcards hok hres
  exact ⟨h.2.2, h.2.1, fun k => rfl⟩

/-- Concrete instantiation of `submit_edit_mode_id_sources`: the edit
target's `deck_id` is absent (`none`) and differs from its `_id`; the
save still succeeds and the card create is issued under `none`. -/
theorem submit_edit_mode_id_sources_witness :
    (handleSubmit "u" 0
        (some { _id := 3, deck_id := none, title := "old", cards := [] })
        succEnv
        { deckTitle := "T",
          flashcardsData := [{ _id := none, front := "f", back := "b" }],
          currentCardIndex := 0, isFlipped := false }).calls
        = NetworkCall.updateDeck 3 "T"
          :: (collectFlashcards
                [{ _id := none, front := "f", back := "b" }]).map
              (cardCallOf "u" none)
    ∧ (handleSubmit "u" 0
        (some { _id := 3, deck_id := none, title := "old", cards := [] })
        succEnv
        { deckTitle := "T",
          flashcardsData := [{ _id := none, front := "f", back := "b" }],
          currentCardIndex := 0, isFlipped := false }).onSubmitCalls = 1
    ∧ (∀ k : Nat,
        handleSubmit "u" 0
            (some { _id := 3, deck_id := none, title := "old", cards := [] })
            { deckRes := succEnv.deckRes, createdDeckId := k,
              cardRes := succEnv.cardRes }
            { deckTitle := "T",
              flashcardsData := [{ _id := none, front := "f", back := "b" }],
              currentCardIndex := 0, isFlipped := false }
          = handleSubmit "u" 0
              (some { _id := 3, deck_id := none, title := "old", cards := [] })
              succEnv
              { deckTitle := "T",
                flashcardsData := [{ _id := none, front := "f", back := "b" }],
                currentCardIndex := 0, isFlipped := false }) :=
  submit_edit_mode_id_sources "u" 0
    { _id := 3, deck_id := none, title := "old", cards := [] }
    succEnv
    { deckTitle := "T",
      flashcardsData := [{ _id := none, front := "f", back := "b" }],
      currentCardIndex := 0, isFlipped := false }
    (by decide) (by decide) rfl (fun i _ hcon => FetchResult.noConfusion hcon)

end Flashify
